import Mathlib

/-!
Verification of the NeurIPS scraping / annotation pipeline.

The development shallowly embeds the two Python modules:
  * `Scrapping.py` — fetch / extract / persist pipeline with retries,
    deduplication and incremental append semantics;
  * `Data annotation/annotate_dataset.py` — an independent classification
    pass over the structured store.

External effects (HTTP responses, the pages of the remote site, the language
replies of the model, the filesystem) are modelled as explicit parameters, so
every function of the source becomes a pure Lean function of the inputs of
the code plus the responses of the environment.
-/

/-- The character class removed by `clean_filename`
(regex `[\/\\:*?"<>|]` in `Scrapping.py`). -/
def illegalFilenameChars : List Char := ['/', '\\', ':', '*', '?', '"', '<', '>', '|']

/-- The function clean_filename of `Scrapping.py`: delete every character of the
illegal class, then keep the first 200 characters (`[:200]`). -/
def clean_filename (name : String) : String :=
  ((name.data.filter (fun c => !(illegalFilenameChars.contains c))).take 200).asString

example : clean_filename ("A/B:C?\"D") = "ABCD" := by decide

example : clean_filename ("Paper X") = "Paper X" := by decide

/-- C7: every character surviving `clean_filename` is outside the illegal class,
and the result has at most 200 characters. -/
theorem C7_filename_safety (s : String) :
    (∀ c ∈ (clean_filename s).data, c ∉ illegalFilenameChars) ∧
    (clean_filename s).length ≤ 200 := by
  constructor
  · intro c hc
    have hc' : c ∈ (s.data.filter (fun c => !(illegalFilenameChars.contains c))).take 200 := hc
    have hmem := List.mem_of_mem_take hc'
    have hp := (List.mem_filter.mp hmem).2
    simp only [Bool.not_eq_true'] at hp
    simpa using hp
  · have : (clean_filename s).length =
        ((s.data.filter (fun c => !(illegalFilenameChars.contains c))).take 200).length := rfl
    rw [this, List.length_take]
    exact min_le_left _ _

/-- C10: `clean_filename` is idempotent — cleaning an already-cleaned name
changes nothing, since it has no illegal character and at most 200 characters. -/
theorem C10_clean_idempotent (s : String) :
    clean_filename (clean_filename s) = clean_filename s := by
  unfold clean_filename
  have hdata : ((((s.data.filter (fun c => !(illegalFilenameChars.contains c))).take 200).asString).data)
      = (s.data.filter (fun c => !(illegalFilenameChars.contains c))).take 200 := rfl
  rw [hdata]
  have hfilter : ((s.data.filter (fun c => !(illegalFilenameChars.contains c))).take 200).filter
      (fun c => !(illegalFilenameChars.contains c))
      = (s.data.filter (fun c => !(illegalFilenameChars.contains c))).take 200 := by
    apply List.filter_eq_self.mpr
    intro a ha
    exact (List.mem_filter.mp (List.mem_of_mem_take ha)).2
  rw [hfilter, List.take_take, min_self]

/-! ## Content fetcher: `fetch` (`Scrapping.py`, lines 127-149) -/

/-- What one HTTP GET attempt of `fetch` observes: a response with a status
code and a body, an `asyncio.TimeoutError`, or another network exception. -/
inductive AttemptOutcome where
  | response (status : Nat) (body : String)
  | timeoutErr
  | netError (msg : String)

/-- An attempt fails when the status is not 200, or an exception was raised. -/
def attemptFails : AttemptOutcome → Bool
  | .response status _ => !(status == 200)
  | .timeoutErr => true
  | .netError _ => true

/-- Observable trace of one `fetch` call: the returned value (`none` models
the Python value None), how many GET attempts were issued, and the list of sleep
durations (seconds) performed between consecutive attempts. -/
structure FetchTrace where
  result : Option String
  attempts : Nat
  sleeps : List Nat
  deriving Repr, DecidableEq

/-- The loop body of `fetch` for the attempts still to run. `outcomes k` is
what the k-th GET (0-based, absolute index) observes; `remaining + 1` attempts
are left including the current one. Mirrors
`for attempt in range(retries): ... if attempt < retries - 1: await asyncio.sleep(5)`:
a sleep of 5 seconds happens after a failed attempt that is not the last. -/
def fetchLoop (outcomes : Nat → AttemptOutcome) (attempt : Nat) : Nat → FetchTrace
  | 0 => ⟨none, 0, []⟩
  | remaining + 1 =>
    let keepTrying : Unit → FetchTrace := fun _ =>
      let rest := fetchLoop outcomes (attempt + 1) remaining
      match remaining with
      | 0 => ⟨rest.result, rest.attempts + 1, rest.sleeps⟩
      | _ + 1 => ⟨rest.result, rest.attempts + 1, 5 :: rest.sleeps⟩
    match outcomes attempt with
    | .response status body =>
      if status == 200 then ⟨some body, 1, []⟩ else keepTrying ()
    | .timeoutErr => keepTrying ()
    | .netError _ => keepTrying ()

/-- The function fetch of `Scrapping.py` (signature `fetch(session, url, retries=3)`):
run the retry loop from attempt 0 with
`retries` attempts available; when all are exhausted the function returns
`None`. The URL is fixed throughout; `outcomes` models what the network does
on each attempt for that URL. -/
def fetch (outcomes : Nat → AttemptOutcome) (retries : Nat) : FetchTrace :=
  fetchLoop outcomes 0 retries

example : fetch (fun _ => AttemptOutcome.timeoutErr) 3 = ⟨none, 3, [5, 5]⟩ := by decide

example :
    fetch (fun k => if k == 1 then AttemptOutcome.response 200 ("ok")
                    else AttemptOutcome.response 500 ("err")) 3
      = ⟨some ("ok"), 2, [5]⟩ := by decide

/-- On a URL where every attempt fails, the loop started anywhere consumes
exactly the remaining budget, yields `none`, and sleeps 5 seconds between
consecutive attempts. -/
theorem fetchLoop_all_fail (outcomes : Nat → AttemptOutcome)
    (hfail : ∀ k, attemptFails (outcomes k) = true) :
    ∀ remaining attempt, fetchLoop outcomes attempt remaining
      = ⟨none, remaining, List.replicate (remaining - 1) 5⟩ := by
  intro remaining
  induction remaining with
  | zero => intro attempt; rfl
  | succ r ih =>
    intro attempt
    have hk := hfail attempt
    cases houtcome : outcomes attempt with
    | response status body =>
      rw [houtcome] at hk
      simp only [attemptFails, Bool.not_eq_true'] at hk
      simp only [fetchLoop, houtcome, hk, Bool.false_eq_true, if_false, ih]
      cases r with
      | zero => rfl
      | succ r' => simp [List.replicate]
    | timeoutErr =>
      simp only [fetchLoop, houtcome, ih]
      cases r with
      | zero => rfl
      | succ r' => simp [List.replicate]
    | netError msg =>
      simp only [fetchLoop, houtcome, ih]
      cases r with
      | zero => rfl
      | succ r' => simp [List.replicate]

/-- C3: on a URL where every GET attempt fails (non-200 status, timeout or
network error), `fetch` with parameter `retries` issues exactly `retries`
attempts, returns `None` rather than raising, and sleeps a fixed 5 seconds
between consecutive attempts (`retries - 1` sleeps). -/
theorem C3_retry_bound (outcomes : Nat → AttemptOutcome) (retries : Nat)
    (hfail : ∀ k, attemptFails (outcomes k) = true) :
    fetch outcomes retries
      = ⟨none, retries, List.replicate (retries - 1) 5⟩ :=
  fetchLoop_all_fail outcomes hfail retries 0

/-- Witness for C3 at a concrete always-failing URL and `retries = 3`:
exactly 3 attempts, result `None`, two 5-second sleeps. -/
theorem C3_retry_bound_witness :
    (∀ k, attemptFails ((fun (_ : Nat) => AttemptOutcome.timeoutErr) k) = true) ∧
    fetch (fun (_ : Nat) => AttemptOutcome.timeoutErr) 3 = ⟨none, 3, [5, 5]⟩ :=
  ⟨fun _ => rfl, C3_retry_bound (fun (_ : Nat) => AttemptOutcome.timeoutErr) 3 (fun _ => rfl)⟩

/-! ## Data model -/

/-- The metadata dictionary built by `process_document` and persisted by
`store_csv` / `store_json` (fields `year, title, authors, abstract, pdf_url`). -/
structure PaperRecord where
  year : Nat
  title : String
  authors : String
  abstract : String
  pdf_url : String
  deriving Repr, DecidableEq

/-! ## Classifier adapter (`Data annotation/annotate_dataset.py`) -/

/-- The list `ANNOTATION_CATEGORIES` from `annotate_dataset.py`. -/
def ANNOTATION_CATEGORIES : List String :=
  ["Deep Learning", "Computer Vision", "Reinforcement Learning",
   "Natural Language Processing", "Optimization"]

/-- What one `ChatCompletion.acreate` call does, as observed by
`annotate_with_gemini`: either a well-formed response whose
`choices[0].message.content` is `content`, or one of the failure modes that
raise inside the `try` block — a structurally malformed response (`KeyError` /
`IndexError` on extraction), a timeout, a rate limit, or any other exception. -/
inductive LLMCallResult where
  | ok (content : String)
  | malformed
  | timeoutErr
  | rateLimited
  | exn (msg : String)

/-- Model of the Python method str.strip: remove leading and trailing whitespace. -/
def pyStrip (s : String) : String :=
  (((s.data.dropWhile Char.isWhitespace).reverse.dropWhile Char.isWhitespace).reverse).asString

example : pyStrip ("  Paper X \n") = "Paper X" := by decide

/-- The function annotate_with_gemini of `annotate_dataset.py`: on a
well-formed response return
the stripped content; every exception (including those raised while indexing
into a malformed response) is caught and mapped to `"Uncategorized"`.
The prompt construction does not influence the returned value, so the behaviour of the call is summarised by its `LLMCallResult`. -/
def annotate_with_gemini (call : LLMCallResult) : String :=
  match call with
  | .ok content => pyStrip content
  | .malformed => "Uncategorized"
  | .timeoutErr => "Uncategorized"
  | .rateLimited => "Uncategorized"
  | .exn _ => "Uncategorized"

/-- A row of the annotated output: `paper["category"] = category` then
`writer.writerow(paper)` in `annotate_dataset`. -/
structure AnnotatedRow where
  paper : PaperRecord
  category : String
  deriving Repr, DecidableEq

/-- The per-paper step of the loop of `annotate_dataset`: classify `(title,
abstract)` through the model (whose behaviour is `call`) and attach the
resulting category to the record. -/
def annotateRow (call : String → String → LLMCallResult) (p : PaperRecord) : AnnotatedRow :=
  ⟨p, annotate_with_gemini (call p.title p.abstract)⟩

/-- C5: whenever the classification call fails at the call level — it raises
(timeout, rate limit, other exception) or returns a structurally malformed
response — `annotate_with_gemini` returns exactly `"Uncategorized"` and never
propagates the error. -/
theorem C5_classifier_fallback :
    annotate_with_gemini .malformed = "Uncategorized" ∧
    annotate_with_gemini .timeoutErr = "Uncategorized" ∧
    annotate_with_gemini .rateLimited = "Uncategorized" ∧
    ∀ msg, annotate_with_gemini (.exn msg) = "Uncategorized" :=
  ⟨rfl, rfl, rfl, fun _ => rfl⟩

/-- C6 counterexample: if the reply of the model is the well-formed text
`"Banana"`, the category of the annotated record is `"Banana"`, which is neither in
the fixed label set nor the sentinel — the claimed invariant fails for this
possible reply text. -/
theorem C6_counterexample :
    ¬ ((annotateRow (fun _ _ => LLMCallResult.ok ("Banana"))
          ⟨2020, "T", "A", "Abs", "U"⟩).category ∈ ANNOTATION_CATEGORIES ∨
       (annotateRow (fun _ _ => LLMCallResult.ok ("Banana"))
          ⟨2020, "T", "A", "Abs", "U"⟩).category = "Uncategorized") := by
  decide

/-- C6 amended: the category of an annotated record is `"Uncategorized"` exactly
when the call failed; otherwise it is the trimmed response text verbatim — no
membership check against `ANNOTATION_CATEGORIES` is performed, so the category
lies in the fixed label set only when the trimmed reply of the model does. -/
theorem C6_category_amended (call : String → String → LLMCallResult) (p : PaperRecord) :
    (annotateRow call p).category = "Uncategorized" ∨
    ∃ content, call p.title p.abstract = .ok content ∧
      (annotateRow call p).category = pyStrip content := by
  cases hcall : call p.title p.abstract with
  | ok content =>
    refine Or.inr ⟨content, ?_, ?_⟩
    · rfl
    · simp [annotateRow, annotate_with_gemini, hcall]
  | malformed => exact Or.inl (by simp [annotateRow, annotate_with_gemini, hcall])
  | timeoutErr => exact Or.inl (by simp [annotateRow, annotate_with_gemini, hcall])
  | rateLimited => exact Or.inl (by simp [annotateRow, annotate_with_gemini, hcall])
  | exn msg => exact Or.inl (by simp [annotateRow, annotate_with_gemini, hcall])

/-! ## The annotation pass as a filesystem transformer (C9) -/

/-- Fixed paths from `annotate_dataset.py`. -/
def INPUT_JSON_FILE : String := "C:/NeurIPS_papers/metadata.json"

def OUTPUT_CSV_FILE : String := "C:/NeurIPS_papers/annotated_metadata.csv"

/-- A filesystem: path to optional file content. -/
def FileSys : Type := String → Option String

/-- Writing a file (`open(path, "w")` followed by writing `content`). -/
def fsWrite (fs : FileSys) (path content : String) : FileSys :=
  fun q => if q = path then some content else fs q

/-- The function annotate_dataset as a transformer of the filesystem. The JSON decoder
and the CSV encoder are the external serialisation collaborators; `call`
models the model endpoint. Mirrors the source: if the input file is missing,
return; if JSON decoding fails, return; otherwise open the output file for
writing and emit one annotated row per paper. Only `OUTPUT_CSV_FILE` is ever
opened for writing. -/
def annotate_dataset (call : String → String → LLMCallResult)
    (jsonDecode : String → Option (List PaperRecord))
    (csvEncode : List AnnotatedRow → String) (fs : FileSys) : FileSys :=
  match fs INPUT_JSON_FILE with
  | none => fs
  | some content =>
    match jsonDecode content with
    | none => fs
    | some papers =>
      fsWrite fs OUTPUT_CSV_FILE (csvEncode (papers.map (annotateRow call)))

/-- C9: the annotation pass never modifies the structured store it reads:
after running `annotate_dataset`, the content of the input JSON file is
exactly what it was before, in every filesystem and for every behaviour of
the decoder, encoder and model. -/
theorem C9_annotation_frame (call : String → String → LLMCallResult)
    (jsonDecode : String → Option (List PaperRecord))
    (csvEncode : List AnnotatedRow → String) (fs : FileSys) :
    annotate_dataset call jsonDecode csvEncode fs INPUT_JSON_FILE
      = fs INPUT_JSON_FILE := by
  unfold annotate_dataset
  cases hread : fs INPUT_JSON_FILE with
  | none => simp [hread]
  | some content =>
    cases hdecode : jsonDecode content with
    | none => simp [hread, hdecode]
    | some papers =>
      simp only [hread, hdecode]
      have hne : INPUT_JSON_FILE ≠ OUTPUT_CSV_FILE := by decide
      simp [fsWrite, hne, hread]

/-! ## Binary asset download: `download_pdf` (`Scrapping.py`, lines 101-125) -/

/-- What one download attempt observes. `response status chunks`: a response
with that status whose body streams to completion in the given chunks;
`streamFail written`: HTTP 200, the destination file is opened for writing and
`written` chunks are written, then `response.content.read` raises;
`connFail`: the request itself raises before any response. Chunks are
abstract block identifiers. -/
inductive PdfAttempt where
  | response (status : Nat) (chunks : List Nat)
  | streamFail (written : List Nat)
  | connFail

/-- The binary asset store: destination path to the chunk list on disk. -/
def PdfFs : Type := String → Option (List Nat)

/-- Opening the destination in mode wb plus the writes: the file at `path`
now holds exactly `chunks` (mode wb truncates). -/
def pdfWrite (fs : PdfFs) (path : String) (chunks : List Nat) : PdfFs :=
  fun q => if q = path then some chunks else fs q

/-- The retry loop of `download_pdf`, one `PdfAttempt` per loop iteration.
On HTTP 200 with a complete stream the file is written and the function
returns (success). On non-200 or a connection error nothing is written and
the loop continues. On a mid-stream failure the chunks already written remain
on disk (the `with open` block has executed) and the loop continues. After
the list is exhausted the failure is only logged: the `Bool` is false but the
filesystem is whatever the attempts left behind. -/
def downloadLoop (path : String) : PdfFs → List PdfAttempt → PdfFs × Bool
  | fs, [] => (fs, false)
  | fs, a :: rest =>
    match a with
    | .response status chunks =>
      if status == 200 then (pdfWrite fs path chunks, true)
      else downloadLoop path fs rest
    | .streamFail written => downloadLoop path (pdfWrite fs path written) rest
    | .connFail => downloadLoop path fs rest

/-- The function download_pdf (signature `download_pdf(session, pdf_url,
filename, attempts=3)`): skip entirely when
the destination already exists, otherwise run the retry loop; `outcomes` has
one entry per attempt (so `attempts = outcomes.length`). The `Bool` records
whether the download completed successfully. -/
def download_pdf (path : String) (fs : PdfFs) (outcomes : List PdfAttempt) : PdfFs × Bool :=
  if (fs path).isSome then (fs, true) else downloadLoop path fs outcomes

/-- C2 evaluated at the failing input: the destination does not exist, the
first attempt reaches HTTP 200 but the stream raises after one chunk is
written, and the two remaining attempts fail to connect. The final attempt
has failed (result `false`), yet a truncated file is left at the destination
— refuting `exists(path) ⇒ download completed successfully`. -/
theorem C2_truncated_asset_left :
    (download_pdf ("T.pdf") (fun _ => none)
        [PdfAttempt.streamFail [1], PdfAttempt.connFail, PdfAttempt.connFail]).2 = false ∧
    (download_pdf ("T.pdf") (fun _ => none)
        [PdfAttempt.streamFail [1], PdfAttempt.connFail, PdfAttempt.connFail]).1 ("T.pdf")
      = some [1] := by
  constructor
  · rfl
  · simp [download_pdf, downloadLoop, pdfWrite]

/-! ## Storage layer (`Scrapping.py`, lines 20-54) -/

/-- The function store_csv: append one row to the tabular store (the header
handling does not affect the row sequence). -/
def store_csv (metadata : PaperRecord) (rows : List PaperRecord) : List PaperRecord :=
  rows ++ [metadata]

/-- The function store_json: read the JSON array, append, rewrite — the entry
list grows by one at the end. -/
def store_json (metadata : PaperRecord) (entries : List PaperRecord) : List PaperRecord :=
  entries ++ [metadata]

/-- Both persistent stores as in-memory lists of appended records. -/
structure Store where
  csvRows : List PaperRecord
  jsonEntries : List PaperRecord
  deriving Repr, DecidableEq

/-- The function get_processed_titles: the titles currently recorded in the structured
store (a Python set; membership is all that is ever used of it). -/
def get_processed_titles (entries : List PaperRecord) : List String :=
  entries.map (fun r => r.title)

/-! ## Document extractor and orchestrator (`Scrapping.py`, lines 56-99, 151-172) -/

/-- What the HTML parser extracts from one document page: the text of the `<title>`
element (if the element exists), the href of the first matching
asset-link pattern (if any), and the text blocks following the `Authors` and
`Abstract` headings (if those headings exist). -/
structure DocPage where
  titleElement : Option String
  pdfHref : Option String
  authorsText : Option String
  abstractText : Option String

def baseSite : String := "https://papers.nips.cc"

/-- The function process_document (signature `process_document(session,
doc_url, year, processed_titles)`) restricted to
its effect on the two metadata stores. `pages` models the remote site: the
parsed page each document URL resolves to. Mirrors the source order: no
`<title>` element — warn and return; cleaned title already in
`processed_titles` — skip and return; otherwise build the metadata record
(sentinels for missing authors/abstract/pdf link) and append it to both
stores. The set `processed_titles` is only read — the source never adds the
stored title to it. The binary asset download writes to the separate asset
store and does not touch the metadata stores, so it is modelled separately
(`download_pdf`). -/
def process_document (pages : String → DocPage) (doc_url : String) (year : Nat)
    (processed_titles : List String) (st : Store) : Store :=
  let page := pages doc_url
  match page.titleElement with
  | none => st
  | some t =>
    let title := clean_filename (pyStrip t)
    if title ∈ processed_titles then st
    else
      let pdf_url := (page.pdfHref.map (fun h => baseSite ++ h)).getD ("Unavailable")
      let authors := page.authorsText.getD ("Authors not available")
      let abstract := page.abstractText.getD ("Abstract not available")
      let metadata : PaperRecord := ⟨year, title, authors, abstract, pdf_url⟩
      ⟨store_csv metadata st.csvRows, store_json metadata st.jsonEntries⟩

/-- One entry of the yearly index page: the anchor text (as returned by
`paper.get_text(strip=True)`) and the href of the abstract link. -/
structure PaperLink where
  text : String
  href : String

/-- The remote site for one year, with identical content on every request:
the document links listed on the index page, and the page each document URL
resolves to. -/
structure Remote where
  indexPapers : List PaperLink
  pages : String → DocPage

/-- The body of the `for paper in papers` loop in `fetch_yearly_data`: skip
when the anchor text is already a known title, otherwise process the
document. `pt` is the known-title set loaded before the loop; it is never
updated inside the loop. -/
def run_year_step (pages : String → DocPage) (year : Nat) (pt : List String)
    (st : Store) (paper : PaperLink) : Store :=
  if paper.text ∈ pt then st
  else process_document pages (baseSite ++ paper.href) year pt st

/-- The function fetch_yearly_data for a year whose index page loads
successfully:
materialise the known-title set from the structured store once, then walk the
index entries in page order. -/
def fetch_yearly_data (remote : Remote) (year : Nat) (st : Store) : Store :=
  remote.indexPapers.foldl
    (run_year_step remote.pages year (get_processed_titles st.jsonEntries)) st

/-- The records appended by the walk of one year, relative to a FIXED known-title set
`pt`: one record per index link whose anchor text is not in `pt` and whose
page has a `<title>` whose cleaned text is not in `pt`. Since the source
never updates the set during the loop, the appended records are exactly
these — independent of what earlier iterations of the same loop appended. -/
def newRecords (pages : String → DocPage) (year : Nat) (pt : List String) :
    List PaperLink → List PaperRecord
  | [] => []
  | p :: rest =>
    if p.text ∈ pt then newRecords pages year pt rest
    else
      let page := pages (baseSite ++ p.href)
      match page.titleElement with
      | none => newRecords pages year pt rest
      | some t =>
        let title := clean_filename (pyStrip t)
        if title ∈ pt then newRecords pages year pt rest
        else
          ⟨year, title, page.authorsText.getD ("Authors not available"),
            page.abstractText.getD ("Abstract not available"),
            (page.pdfHref.map (fun h => baseSite ++ h)).getD ("Unavailable")⟩
            :: newRecords pages year pt rest

lemma process_document_title_missing (pages : String → DocPage) (u : String)
    (year : Nat) (pt : List String) (st : Store)
    (h : (pages u).titleElement = none) :
    process_document pages u year pt st = st := by
  simp [process_document, h]

lemma process_document_skip (pages : String → DocPage) (u : String)
    (year : Nat) (pt : List String) (st : Store) (t : String)
    (h : (pages u).titleElement = some t)
    (hmem : clean_filename (pyStrip t) ∈ pt) :
    process_document pages u year pt st = st := by
  simp [process_document, h, hmem]

lemma process_document_store (pages : String → DocPage) (u : String)
    (year : Nat) (pt : List String) (st : Store) (t : String)
    (h : (pages u).titleElement = some t)
    (hmem : clean_filename (pyStrip t) ∉ pt) :
    process_document pages u year pt st
      = ⟨st.csvRows ++ [⟨year, clean_filename (pyStrip t),
            (pages u).authorsText.getD ("Authors not available"),
            (pages u).abstractText.getD ("Abstract not available"),
            ((pages u).pdfHref.map (fun h => baseSite ++ h)).getD ("Unavailable")⟩],
         st.jsonEntries ++ [⟨year, clean_filename (pyStrip t),
            (pages u).authorsText.getD ("Authors not available"),
            (pages u).abstractText.getD ("Abstract not available"),
            ((pages u).pdfHref.map (fun h => baseSite ++ h)).getD ("Unavailable")⟩]⟩ := by
  simp [process_document, h, hmem, store_csv, store_json]

/-- The year loop, run with a fixed known-title set `pt`, appends exactly
`newRecords pages year pt papers` to both stores. -/
lemma foldl_run_year_step (pages : String → DocPage) (year : Nat) (pt : List String) :
    ∀ (papers : List PaperLink) (st : Store),
      papers.foldl (run_year_step pages year pt) st
        = ⟨st.csvRows ++ newRecords pages year pt papers,
           st.jsonEntries ++ newRecords pages year pt papers⟩ := by
  intro papers
  induction papers with
  | nil => intro st; cases st; simp [newRecords]
  | cons p rest ih =>
    intro st
    rw [List.foldl_cons]
    by_cases htext : p.text ∈ pt
    · rw [show run_year_step pages year pt st p = st by simp [run_year_step, htext]]
      rw [ih st]
      simp [newRecords, htext]
    · rw [show run_year_step pages year pt st p
          = process_document pages (baseSite ++ p.href) year pt st by
            simp [run_year_step, htext]]
      cases hpage : (pages (baseSite ++ p.href)).titleElement with
      | none =>
        rw [process_document_title_missing _ _ _ _ _ hpage, ih st]
        simp [newRecords, htext, hpage]
      | some t =>
        by_cases htitle : clean_filename (pyStrip t) ∈ pt
        · rw [process_document_skip _ _ _ _ _ _ hpage htitle, ih st]
          simp [newRecords, htext, hpage, htitle]
        · rw [process_document_store _ _ _ _ _ _ hpage htitle, ih]
          simp [newRecords, htext, hpage, htitle]

/-- The function `fetch_yearly_data` characterised: it appends, to both stores, exactly the
records of the index links that are new relative to the title set loaded from
the structured store at the start of the year. -/
lemma fetch_yearly_data_eq (remote : Remote) (year : Nat) (st : Store) :
    fetch_yearly_data remote year st
      = ⟨st.csvRows ++ newRecords remote.pages year
            (get_processed_titles st.jsonEntries) remote.indexPapers,
         st.jsonEntries ++ newRecords remote.pages year
            (get_processed_titles st.jsonEntries) remote.indexPapers⟩ :=
  foldl_run_year_step remote.pages year (get_processed_titles st.jsonEntries)
    remote.indexPapers st

/-- A record produced for the tail of the index is also produced for the
whole index (with the same fixed title set). -/
lemma mem_newRecords_cons (pages : String → DocPage) (year : Nat)
    (pt : List String) (p : PaperLink) (rest : List PaperLink) (r : PaperRecord)
    (h : r ∈ newRecords pages year pt rest) :
    r ∈ newRecords pages year pt (p :: rest) := by
  by_cases htext : p.text ∈ pt
  · rw [newRecords, if_pos htext]; exact h
  · rw [newRecords, if_neg htext]
    cases hpage : (pages (baseSite ++ p.href)).titleElement with
    | none => simpa [hpage] using h
    | some t =>
      by_cases htitle : clean_filename (pyStrip t) ∈ pt
      · simpa [hpage, htitle] using h
      · simp only [hpage, if_neg htitle]
        exact List.mem_cons_of_mem _ h

/-- If every title skipped or produced under the smaller set `pt` is present
in the larger set `pt'`, a second walk under `pt'` produces nothing. -/
lemma newRecords_nil (pages : String → DocPage) (year : Nat) :
    ∀ (papers : List PaperLink) (pt pt' : List String),
      (∀ x ∈ pt, x ∈ pt') →
      (∀ r ∈ newRecords pages year pt papers, r.title ∈ pt') →
      newRecords pages year pt' papers = [] := by
  intro papers
  induction papers with
  | nil => intro pt pt' _ _; rfl
  | cons p rest ih =>
    intro pt pt' hsub hnew
    have hrest : ∀ r ∈ newRecords pages year pt rest, r.title ∈ pt' :=
      fun r hr => hnew r (mem_newRecords_cons pages year pt p rest r hr)
    have htail : newRecords pages year pt' rest = [] := ih pt pt' hsub hrest
    by_cases htext' : p.text ∈ pt'
    · rw [newRecords, if_pos htext', htail]
    · have htext : p.text ∉ pt := fun h => htext' (hsub _ h)
      cases hpage : (pages (baseSite ++ p.href)).titleElement with
      | none =>
        rw [newRecords, if_neg htext']
        simp only [hpage, htail]
      | some t =>
        have htitle' : clean_filename (pyStrip t) ∈ pt' := by
          by_cases htitle : clean_filename (pyStrip t) ∈ pt
          · exact hsub _ htitle
          · have hhead : (⟨year, clean_filename (pyStrip t),
                (pages (baseSite ++ p.href)).authorsText.getD ("Authors not available"),
                (pages (baseSite ++ p.href)).abstractText.getD ("Abstract not available"),
                ((pages (baseSite ++ p.href)).pdfHref.map (fun h => baseSite ++ h)).getD
                  ("Unavailable")⟩ : PaperRecord)
                ∈ newRecords pages year pt (p :: rest) := by
              rw [newRecords, if_neg htext]
              simp only [hpage, if_neg htitle]
              exact List.mem_cons_self _ _
            exact hnew _ hhead
        rw [newRecords, if_neg htext']
        simp only [hpage, if_pos htitle', htail]

/-- C8: running the yearly pipeline a second time over the same year, with
the remote site returning identical content, changes neither store: every
reference is found (by anchor text or cleaned title) in the known-title set
materialised from the structured store left by the first run, so no record
is appended and the set of stored titles is unchanged. -/
theorem C8_idempotent_rerun (remote : Remote) (year : Nat) (st : Store) :
    fetch_yearly_data remote year (fetch_yearly_data remote year st)
      = fetch_yearly_data remote year st := by
  have h1 := fetch_yearly_data_eq remote year st
  set pt0 := get_processed_titles st.jsonEntries with hpt0
  set N := newRecords remote.pages year pt0 remote.indexPapers with hN
  have h2 := fetch_yearly_data_eq remote year ⟨st.csvRows ++ N, st.jsonEntries ++ N⟩
  have hpt1 : get_processed_titles (st.jsonEntries ++ N)
      = pt0 ++ N.map (fun r => r.title) := by
    simp [get_processed_titles, hpt0]
  have hsub : ∀ x ∈ pt0, x ∈ pt0 ++ N.map (fun r => r.title) :=
    fun x hx => List.mem_append_left _ hx
  have hnewmem : ∀ r ∈ N, r.title ∈ pt0 ++ N.map (fun r => r.title) := by
    intro r hr
    exact List.mem_append_right _ (List.mem_map_of_mem _ hr)
  have hnil : newRecords remote.pages year
      (get_processed_titles (st.jsonEntries ++ N)) remote.indexPapers = [] := by
    rw [hpt1]
    exact newRecords_nil remote.pages year remote.indexPapers pt0 _ hsub hnewmem
  rw [h1, h2, hnil]
  simp

/-- The C4 document page: `<title>` text `"Paper X"`, no asset link, no
`Authors` heading, an `Abstract` heading followed by the text `"Abc"`. -/
def pageC4 : DocPage := ⟨some ("Paper X"), none, none, some ("Abc")⟩

/-- C4 counterexample: on that page the title of the stored record is not
`"PaperX"` — `clean_filename` removes only the nine illegal characters, not
the space. -/
theorem C4_counterexample :
    ((process_document (fun _ => pageC4) ("u") 2020 [] ⟨[], []⟩).jsonEntries.map
        (fun r => r.title)) ≠ ["PaperX"] := by
  decide

/-- C4 amended: extraction on that page yields the record with title
`"Paper X"` (space preserved), authors `"Authors not available"`, abstract
`"Abc"`, and the `"Unavailable"` sentinel for the missing asset link, appended
to both stores. -/
theorem C4_extraction_amended :
    process_document (fun _ => pageC4) ("u") 2020 [] ⟨[], []⟩
      = ⟨[⟨2020, "Paper X", "Authors not available", "Abc", "Unavailable"⟩],
         [⟨2020, "Paper X", "Authors not available", "Abc", "Unavailable"⟩]⟩ := by
  decide

/-- C1 counterexample: one year, empty initial store, two index links with
distinct anchor texts and hrefs whose pages carry the same `<title>`. Both
are appended — the duplicate titles show the second reference was stored
again rather than skipped, refuting the claim. -/
theorem C1_counterexample :
    ((fetch_yearly_data
        ⟨[⟨"A", "/a"⟩, ⟨"B", "/b"⟩],
          fun _ => ⟨some ("Same Title"), none, none, none⟩⟩
        2020 ⟨[], []⟩).jsonEntries.map (fun r => r.title))
      = ["Same Title", "Same Title"] ∧
    ¬ ((fetch_yearly_data
        ⟨[⟨"A", "/a"⟩, ⟨"B", "/b"⟩],
          fun _ => ⟨some ("Same Title"), none, none, none⟩⟩
        2020 ⟨[], []⟩).jsonEntries.map (fun r => r.title)).Nodup := by
  constructor
  · decide
  · decide

/-- C1 amended: the known-title set is materialised from the structured store
once at the start of the year and never updated during the run, so a
reference is appended exactly when its anchor text and cleaned page title are
new relative to that initial set — regardless of what earlier references in
the same run stored. In particular two references resolving to the same new
cleaned title are both appended (`newRecords` keeps both). -/
theorem C1_dedup_amended (remote : Remote) (year : Nat) (st : Store) :
    fetch_yearly_data remote year st
      = ⟨st.csvRows ++ newRecords remote.pages year
            (get_processed_titles st.jsonEntries) remote.indexPapers,
         st.jsonEntries ++ newRecords remote.pages year
            (get_processed_titles st.jsonEntries) remote.indexPapers⟩ :=
  foldl_run_year_step remote.pages year (get_processed_titles st.jsonEntries)
    remote.indexPapers st
